import Mathlib

/-!
Verification of the store-bridge micro-frontend repository.

This file gives a shallow embedding of the parts of the repository the
claims concern, and proves theorems about them:

* `DataService` (Angular `data.service.ts`): the in-memory data provider
  (`getSampleData`, `addCustomItem`, `addMoreData`, `resetData`).
* `StoreBridgeService` (`store-bridge.service.ts`): the broadcast-channel
  bridge (message handler, `sanitizeData`, the activation counter
  `activeListeners`, and the deduplicated store-update broadcast).
* The React remote listener (`handleBroadcastMessage`).

JavaScript values that can appear as message payloads are embedded by the
inductive `JVal`; items are embedded both as typed `DataItem` records (the
shape `DataService` produces) and, where field-level behaviour matters
(sanitization), as `JsObject` = ordered lists of named fields.
-/

/-- A primitive JavaScript value stored in an object field. -/
inductive JPrim where
  | pnum (n : Int)
  | pstr (s : String)
  | pbool (b : Bool)
deriving DecidableEq

/-- A JavaScript object, as its ordered list of own enumerable fields.
The spread `{...item}` copies exactly these fields in order, so at the
value level it is the identity. -/
structure JsObject where
  fields : List (String × JPrim)
deriving DecidableEq

/-- The keys (field names) of an object, in order. -/
def objKeys (o : JsObject) : List String := o.fields.map Prod.fst

/-- A JavaScript value that can travel as a broadcast-channel payload in
this protocol: `undefined`, `null`, booleans, (integer-valued) numbers and
arrays of item objects.  These are the values the two shells exchange. -/
inductive JVal where
  | jundef
  | jnull
  | jbool (b : Bool)
  | jnum (n : Int)
  | jarr (items : List JsObject)
deriving DecidableEq

/-- JavaScript truthiness on the payload domain.  Arrays are always
truthy, including the empty array. -/
def jsTruthy : JVal → Bool
  | .jundef => false
  | .jnull => false
  | .jbool b => b
  | .jnum n => n != 0
  | .jarr _ => true

/-- The length `Array.from {length := v}` uses: ECMAScript `ToLength` on
the payload domain.  `ToNumber` sends `undefined` to `NaN` (hence length
`0`), `null` to `0`, booleans to `0`/`1`; a negative number clamps to `0`.
An array of objects stringifies to a non-numeric string (`NaN`, hence
`0`); the empty array stringifies to the empty string (`0`). -/
def toLengthNat : JVal → Nat
  | .jundef => 0
  | .jnull => 0
  | .jbool b => if b then 1 else 0
  | .jnum n => n.toNat
  | .jarr _ => 0

/-- An item produced by the `DataService` (`data.service.ts`):
`{ id, name, description }`. -/
structure DataItem where
  id : Nat
  name : String
  description : String
deriving DecidableEq

/-- The initial `sampleData` field of `DataService` — the 7-item
baseline.  `resetData` re-creates this same literal. -/
def initialSampleData : List DataItem :=
  [ ⟨1, "Item 1", "Description for item 1"⟩,
    ⟨2, "Item 2", "Description for item 2"⟩,
    ⟨3, "Item 3", "Description for item 3"⟩,
    ⟨4, "Item 4", "Description for item 4"⟩,
    ⟨5, "Item 5", "Description for item 5"⟩,
    ⟨6, "Item 6", "Description for item 6"⟩,
    ⟨7, "Item 7", "Description for item 7"⟩ ]

/-- The item `addMoreData`'s generator builds for a fresh id:
name and description are synthesized from the id by the template
literals `Item ${newId}` and `Description for item ${newId}`. -/
def mkGeneratedItem (newId : Nat) : DataItem :=
  ⟨newId, "Item " ++ toString newId, "Description for item " ++ toString newId⟩

/-- `DataService.getSampleData`: returns (a copy of) the current
`sampleData`.  The `of(...).pipe(delay(1000))` wrapper only delays
delivery; the delivered value is the copy `[...this.sampleData]`. -/
def getSampleData (sampleData : List DataItem) : List DataItem :=
  sampleData

/-- `DataService.addCustomItem`: appends one item whose id is
`sampleData.length + 1`. -/
def addCustomItem (sampleData : List DataItem) (name description : String) :
    List DataItem :=
  sampleData ++ [⟨sampleData.length + 1, name, description⟩]

/-- `DataService.addMoreData(count = 5)`: the default applies only when
the argument is JavaScript `undefined`.  `Array.from {length := count}`
builds `ToLength count` items; the mapper reads `this.sampleData.length`,
which is unchanged until the reassignment after `Array.from` returns, so
every generated id is `sampleData.length + index + 1`. -/
def addMoreData (sampleData : List DataItem) (count : JVal) : List DataItem :=
  let c := toLengthNat (if count = JVal.jundef then JVal.jnum 5 else count)
  let newItems := (List.range c).map
    (fun index => mkGeneratedItem (sampleData.length + index + 1))
  sampleData ++ newItems

/-- `DataService.resetData`: reassigns `sampleData` to the baseline
literal, discarding all additions. -/
def resetData (_sampleData : List DataItem) : List DataItem :=
  initialSampleData

/-- One call into the `DataService`, for reasoning about arbitrary
sequences of provider operations. -/
inductive DataOp where
  | getSample
  | addCustom (name description : String)
  | addMore (count : JVal)
  | reset
deriving DecidableEq

/-- The `sampleData` state after one `DataService` call.
(`getSampleData` does not mutate the state.) -/
def applyOp (s : List DataItem) : DataOp → List DataItem
  | .getSample => getSampleData s
  | .addCustom name description => addCustomItem s name description
  | .addMore count => addMoreData s count
  | .reset => resetData s

/-- The `sampleData` state after a sequence of `DataService` calls. -/
def runOps (s : List DataItem) (ops : List DataOp) : List DataItem :=
  ops.foldl applyOp s

/-- The id invariant of the provider state: the ids are exactly
`1, 2, ..., length`, in order. -/
def dataInv (s : List DataItem) : Prop :=
  s.map (fun it => it.id) = List.range' 1 s.length

instance (s : List DataItem) : Decidable (dataInv s) :=
  inferInstanceAs (Decidable (_ = _))

/-- The largest id present in a provider state (`0` for the empty list).
The source generates ids from the list length; the spec describes them as
continuing from the current maximum — `maxId` states that reading. -/
def maxId (s : List DataItem) : Nat :=
  (s.map (fun it => it.id)).foldr max 0

/-- `StoreBridgeService.sanitizeData`: a falsy argument yields `[]`; for
an array, each item is shallow-copied with the spread `{...item}` (the
`delete` statements that would strip fields are commented out in the
source); any other value is returned unchanged. -/
def sanitizeData (data : JVal) : JVal :=
  if !(jsTruthy data) then .jarr []
  else
    match data with
    | .jarr items => .jarr (items.map (fun item => { fields := item.fields }))
    | v => v

/-- Event-type constant `APP_STORE_DATA_UPDATE` (`DATA_EVENT`). -/
def DATA_EVENT : String := "APP_STORE_DATA_UPDATE"

/-- Event-type constant `APP_STORE_LOADING_UPDATE` (`LOADING_EVENT`). -/
def LOADING_EVENT : String := "APP_STORE_LOADING_UPDATE"

/-- Event-type constant `APP_STORE_REQUEST_DATA`. -/
def REQUEST_DATA_EVENT : String := "APP_STORE_REQUEST_DATA"

/-- Event-type constant `APP_STORE_REQUEST_LOADING`. -/
def REQUEST_LOADING_EVENT : String := "APP_STORE_REQUEST_LOADING"

/-- Event-type constant `APP_STORE_ADD_MORE_DATA`. -/
def ADD_MORE_DATA_EVENT : String := "APP_STORE_ADD_MORE_DATA"

/-- Event-type constant `APP_STORE_RESET_DATA`. -/
def RESET_DATA_EVENT : String := "APP_STORE_RESET_DATA"

/-- The six message types of the protocol catalog (spec §6). -/
def messageTypeCatalog : List String :=
  [DATA_EVENT, LOADING_EVENT, REQUEST_DATA_EVENT, REQUEST_LOADING_EVENT,
   ADD_MORE_DATA_EVENT, RESET_DATA_EVENT]

/-- The store values the bridge reads through `selectAppData` and
`selectAppLoading` at one instant. -/
structure StoreSnap where
  data : List JsObject
  loading : Bool
deriving DecidableEq

/-- A message posted on the `store-updates` channel:
`postMessage {type := eventType, payload}`. -/
structure OutMsg where
  type : String
  payload : JVal
deriving DecidableEq

/-- How a `DataService` item crosses the bridge as a JavaScript object:
exactly the three fields `id`, `name`, `description`. -/
def encodeItem (it : DataItem) : JsObject :=
  { fields := [("id", JPrim.pnum (Int.ofNat it.id)),
               ("name", JPrim.pstr it.name),
               ("description", JPrim.pstr it.description)] }

/-- A `DataService` result list as the array value the bridge sanitizes
and posts. -/
def encodeItems (items : List DataItem) : JVal :=
  .jarr (items.map encodeItem)

/-- `StoreBridgeService.sendCurrentData`: subscribes to `selectAppData`,
which delivers the current value synchronously exactly once before the
immediate `unsubscribe()`, so exactly one `DATA_EVENT` message with the
sanitized current list is posted. -/
def sendCurrentData (snap : StoreSnap) : List OutMsg :=
  [⟨DATA_EVENT, sanitizeData (.jarr snap.data)⟩]

/-- `StoreBridgeService.sendCurrentLoadingState`: one `LOADING_EVENT`
message with the current loading flag. -/
def sendCurrentLoadingState (snap : StoreSnap) : List OutMsg :=
  [⟨LOADING_EVENT, .jbool snap.loading⟩]

/-- Whether the provider observable delivers through `next` or `error`.
(`of(...).pipe(delay(...))` never errors, so `failure` is the dead error
branch of the subscription, modelled for completeness.) -/
inductive ProviderOutcome where
  | success
  | failure
deriving DecidableEq

/-- `StoreBridgeService.handleAddMoreData(count = 5)`: the parameter
default applies only to an `undefined` argument.  The `DataService`
mutation runs when `addMoreData` is called; on `next` the bridge posts
the sanitized new list and then `LOADING_EVENT false`; on `error` it only
logs and posts `LOADING_EVENT false`. -/
def handleAddMoreData (sampleData : List DataItem) (count : JVal)
    (outcome : ProviderOutcome) : List OutMsg × List DataItem :=
  let count' := if count = JVal.jundef then JVal.jnum 5 else count
  let newData := addMoreData sampleData count'
  match outcome with
  | .success =>
      ([⟨DATA_EVENT, sanitizeData (encodeItems newData)⟩,
        ⟨LOADING_EVENT, .jbool false⟩], newData)
  | .failure => ([⟨LOADING_EVENT, .jbool false⟩], newData)

/-- `StoreBridgeService.handleResetData`: resets the provider; on `next`
posts the sanitized reset list then `LOADING_EVENT false`; on `error`
only `LOADING_EVENT false`. -/
def handleResetData (sampleData : List DataItem) (outcome : ProviderOutcome) :
    List OutMsg × List DataItem :=
  let newData := resetData sampleData
  match outcome with
  | .success =>
      ([⟨DATA_EVENT, sanitizeData (encodeItems newData)⟩,
        ⟨LOADING_EVENT, .jbool false⟩], newData)
  | .failure => ([⟨LOADING_EVENT, .jbool false⟩], newData)

/-- The `event.data` of an inbound channel message: either a falsy value
(no usable data) or an object whose `type` field may be missing
(reads as `undefined`). -/
inductive EventData where
  | noData
  | msg (mtype : Option String) (payload : JVal)
deriving DecidableEq

/-- `StoreBridgeService.setupRequestListeners`'s `onmessage` handler.
The guard `event.data && event.data.type` rejects falsy data, a missing
`type` and the falsy empty-string `type`; then four independent `if`s
compare `type` against the request constants (at most one can match,
since the constants are pairwise distinct).  Returns the posted messages
in order together with the resulting `DataService` state. -/
def onBridgeMessage (snap : StoreSnap) (sampleData : List DataItem)
    (ev : EventData) (outcome : ProviderOutcome) :
    List OutMsg × List DataItem :=
  match ev with
  | .noData => ([], sampleData)
  | .msg none _ => ([], sampleData)
  | .msg (some t) payload =>
    if t = "" then ([], sampleData)
    else
      let out1 := if t = REQUEST_DATA_EVENT then sendCurrentData snap else []
      let out2 := if t = REQUEST_LOADING_EVENT then sendCurrentLoadingState snap else []
      let r3 := if t = ADD_MORE_DATA_EVENT
        then handleAddMoreData sampleData payload outcome
        else ([], sampleData)
      let r4 := if t = RESET_DATA_EVENT
        then handleResetData r3.2 outcome
        else ([], r3.2)
      (out1 ++ out2 ++ r3.1 ++ r4.1, r4.2)

/-- `StoreBridgeService.startBroadcastingStoreUpdates`, data pipeline:
the values `selectAppData` delivers while the subscription is live pass
through `distinctUntilChanged` comparing `JSON.stringify` of consecutive
values — on this value domain, structural equality — so the emitted
sequence is the destuttered sequence, each value sanitized and posted as
a `DATA_EVENT` message. -/
def broadcastDataMsgs (states : List (List JsObject)) : List OutMsg :=
  (states.destutter (fun a b => a ≠ b)).map
    (fun d => ⟨DATA_EVENT, sanitizeData (.jarr d)⟩)

/-- `startBroadcastingStoreUpdates`, loading pipeline: the values
`selectAppLoading` delivers pass through `distinctUntilChanged` (default
reference equality, which on booleans is equality), each posted as a
`LOADING_EVENT` message. -/
def broadcastLoadingMsgs (flags : List Bool) : List OutMsg :=
  (flags.destutter (fun a b => a ≠ b)).map
    (fun b => ⟨LOADING_EVENT, .jbool b⟩)

/-- The bridge's activation state: the `activeListeners` counter (a
JavaScript number, so modelled as an integer) and whether the
store-update subscriptions are live. -/
structure BridgeState where
  activeListeners : Int
  broadcasting : Bool
deriving DecidableEq

/-- The bridge starts with `activeListeners = 0` and no subscriptions. -/
def initialBridgeState : BridgeState := ⟨0, false⟩

/-- `StoreBridgeService.activateBroadcasting`: increment, and start
broadcasting exactly on the transition to `1`. -/
def activateBroadcasting (s : BridgeState) : BridgeState :=
  let n := s.activeListeners + 1
  { activeListeners := n,
    broadcasting := if n = 1 then true else s.broadcasting }

/-- `StoreBridgeService.deactivateBroadcasting`: decrement; if the
result is `≤ 0`, stop broadcasting and clamp the counter back to `0`
(the source comment: prevent negative counts). -/
def deactivateBroadcasting (s : BridgeState) : BridgeState :=
  let n := s.activeListeners - 1
  if n ≤ 0 then { activeListeners := 0, broadcasting := false }
  else { activeListeners := n, broadcasting := s.broadcasting }

/-- One public activation call on the bridge. -/
inductive BridgeCall where
  | activate
  | deactivate
deriving DecidableEq

/-- Apply one activation call. -/
def applyBridgeCall (s : BridgeState) : BridgeCall → BridgeState
  | .activate => activateBroadcasting s
  | .deactivate => deactivateBroadcasting s

/-- The bridge state after a sequence of activate/deactivate calls. -/
def runBridgeCalls (s : BridgeState) (calls : List BridgeCall) : BridgeState :=
  calls.foldl applyBridgeCall s

/-- The invariant claimed for the activation counter: never negative,
and broadcasting is live exactly when the counter is positive. -/
def bridgeInv (s : BridgeState) : Prop :=
  0 ≤ s.activeListeners ∧ (s.broadcasting = true ↔ 0 < s.activeListeners)

instance (s : BridgeState) : Decidable (bridgeInv s) :=
  inferInstanceAs (Decidable (_ ∧ _))

/-- The React remote listener's local state: `data` and `loading` hold
whatever payloads arrived (JavaScript is untyped), plus the
`storeAvailable` flag. -/
structure ReactState where
  data : JVal
  loading : JVal
  storeAvailable : Bool
deriving DecidableEq

/-- The React `App.handleBroadcastMessage`: returns on falsy
`event.data` or falsy `event.data.type`; a `DATA_EVENT` replaces `data`
with `payload || []` and marks the store available; a `LOADING_EVENT`
replaces `loading` with the payload; the `switch` default ignores every
other type. -/
def handleBroadcastMessage (st : ReactState) (ev : EventData) : ReactState :=
  match ev with
  | .noData => st
  | .msg none _ => st
  | .msg (some t) payload =>
    if t = "" then st
    else if t = DATA_EVENT then
      { st with data := if jsTruthy payload then payload else .jarr [],
                storeAvailable := true }
    else if t = LOADING_EVENT then
      { st with loading := payload }
    else st

/-- The item objects of an array payload (empty for any other value). -/
def jarrItems : JVal → List JsObject
  | .jarr items => items
  | _ => []

/-- An item carrying a field outside `{id, name, description}`, used to
probe what `sanitizeData` does with extra fields. -/
def leakyItem : JsObject :=
  { fields := [("id", JPrim.pnum 1), ("name", JPrim.pstr "Item 1"),
               ("description", JPrim.pstr "Description for item 1"),
               ("secret", JPrim.pstr "s3cr3t")] }

/-! ## Helper lemmas -/

/-- On an array, `sanitizeData` is the identity at the value level: the
spread `{...item}` copies every field and the `delete` lines are
commented out. -/
theorem sanitizeData_jarr (items : List JsObject) :
    sanitizeData (.jarr items) = .jarr items := by
  simp [sanitizeData, jsTruthy]

/-- The maximum of `1, ..., L` shifted to start at `a`. -/
theorem foldr_max_range' (L : Nat) :
    ∀ a : Nat, (List.range' a L).foldr max 0 = if L = 0 then 0 else a + L - 1 := by
  induction L with
  | zero => intro a; simp
  | succ n ih =>
    intro a
    rw [List.range'_succ]
    simp only [List.foldr_cons, ih]
    rcases Nat.eq_zero_or_pos n with h | h
    · subst h; simp
    · simp only [if_neg (Nat.pos_iff_ne_zero.mp h), if_neg (Nat.succ_ne_zero n)]
      omega

/-- Under the id invariant the maximum id is the list length, which is
why the length-based id generation of the source coincides with the
spec's continue-from-the-maximum description. -/
theorem maxId_of_inv {s : List DataItem} (h : dataInv s) : maxId s = s.length := by
  unfold maxId
  rw [h, foldr_max_range']
  rcases Nat.eq_zero_or_pos s.length with h0 | h0
  · simp [h0]
  · rw [if_neg (Nat.pos_iff_ne_zero.mp h0)]; omega

/-- The ids of the items `addMoreData` generates over base length `L`
are `L + 1, ..., L + c`. -/
theorem generated_ids (L c : Nat) :
    ((List.range c).map (fun index => mkGeneratedItem (L + index + 1))).map
      (fun it => it.id) = List.range' (L + 1) c := by
  rw [List.map_map, List.range'_eq_map_range]
  apply List.map_congr_left
  intro a _
  simp [mkGeneratedItem]
  omega

/-- The baseline satisfies the id invariant. -/
theorem dataInv_initial : dataInv initialSampleData := by decide

/-- `addCustomItem` preserves the id invariant: it appends id
`length + 1`. -/
theorem dataInv_addCustomItem {s : List DataItem} (name description : String)
    (h : dataInv s) : dataInv (addCustomItem s name description) := by
  unfold dataInv addCustomItem
  simp only [List.map_append, List.length_append, List.map_cons, List.map_nil,
    List.length_cons, List.length_nil]
  rw [h, Nat.zero_add, List.range'_1_concat]
  simp [Nat.add_comm]

/-- `addMoreData` grows the list by the coerced count (after the
`undefined` default). -/
theorem addMoreData_length (s : List DataItem) (c : JVal) :
    (addMoreData s c).length =
      s.length + toLengthNat (if c = JVal.jundef then JVal.jnum 5 else c) := by
  simp [addMoreData]

/-- `addMoreData` unfolded: the appended block of generated items. -/
theorem addMoreData_eq (s : List DataItem) (c : JVal) :
    addMoreData s c =
      s ++ (List.range (toLengthNat (if c = JVal.jundef then JVal.jnum 5 else c))).map
        (fun index => mkGeneratedItem (s.length + index + 1)) := rfl

/-- `addMoreData` preserves the id invariant. -/
theorem dataInv_addMoreData {s : List DataItem} (c : JVal) (h : dataInv s) :
    dataInv (addMoreData s c) := by
  unfold dataInv
  rw [addMoreData_eq, List.map_append, h, generated_ids, List.length_append]
  rw [show s.length + 1 = 1 + s.length by omega, List.range'_append_1]
  simp only [List.length_map, List.length_range]
  rw [Nat.add_comm]

/-- `resetData` re-establishes the id invariant. -/
theorem dataInv_resetData (s : List DataItem) : dataInv (resetData s) :=
  dataInv_initial

/-- Every single `DataService` operation preserves the id invariant. -/
theorem dataInv_applyOp {s : List DataItem} (op : DataOp) (h : dataInv s) :
    dataInv (applyOp s op) := by
  cases op with
  | getSample => exact h
  | addCustom name description => exact dataInv_addCustomItem name description h
  | addMore c => exact dataInv_addMoreData c h
  | reset => exact dataInv_resetData s

/-- The id invariant holds after any sequence of `DataService`
operations from an invariant state; in particular every state reachable
from the baseline satisfies it. -/
theorem dataInv_runOps (ops : List DataOp) :
    ∀ s : List DataItem, dataInv s → dataInv (runOps s ops) := by
  induction ops with
  | nil => intro s h; exact h
  | cons op rest ih =>
    intro s h
    exact ih (applyOp s op) (dataInv_applyOp op h)

/-- One activate/deactivate call preserves the activation invariant. -/
theorem bridgeInv_apply {s : BridgeState} (c : BridgeCall) (h : bridgeInv s) :
    bridgeInv (applyBridgeCall s c) := by
  obtain ⟨h1, h2⟩ := h
  cases c with
  | activate =>
    unfold applyBridgeCall activateBroadcasting bridgeInv
    by_cases hc : s.activeListeners + 1 = 1
    · simp only [hc, if_pos rfl]
      exact ⟨by omega, by simp⟩
    · simp only [if_neg hc]
      refine ⟨by omega, ?_⟩
      rw [h2]; omega
  | deactivate =>
    unfold applyBridgeCall deactivateBroadcasting bridgeInv
    by_cases hc : s.activeListeners - 1 ≤ 0
    · simp [hc]
    · simp only [if_neg hc]
      refine ⟨by omega, ?_⟩
      rw [h2]; omega

/-- The activation invariant holds after any call sequence from an
invariant state. -/
theorem bridgeInv_run (calls : List BridgeCall) :
    ∀ s : BridgeState, bridgeInv s → bridgeInv (runBridgeCalls s calls) := by
  induction calls with
  | nil => intro s h; exact h
  | cons c rest ih => intro s h; exact ih (applyBridgeCall s c) (bridgeInv_apply c h)

/-! ## Claims -/

/-- Claim C1, counterexample: the claim says every item of an emitted
`DATA_UPDATE` payload has only fields from `{id, name, description}`.
It is false: `sanitizeData` only shallow-copies each item — the
field-removing `delete` statements are commented out in the source — so
an item carrying an extra `secret` field keeps it in the sanitized
payload. -/
theorem claim1_counterexample :
    ¬ (∀ o ∈ jarrItems (sanitizeData (.jarr [leakyItem])),
        objKeys o ⊆ ["id", "name", "description"]) := by
  decide

/-- Claim C1, amended: for every inbound `REQUEST_DATA` message and every
broadcast of the item list, the `DATA_UPDATE` payload is produced by
`sanitizeData`, which shallow-copies each item and removes no fields:
each item of the emitted payload has exactly the fields the source item
had — all of them, whether or not they are in `{id, name, description}`. -/
theorem claim1_amended (items : List JsObject) (snap : StoreSnap)
    (sampleData : List DataItem) (oc : ProviderOutcome)
    (states : List (List JsObject)) :
    sanitizeData (.jarr items) = .jarr items ∧
    (jarrItems (sanitizeData (.jarr items))).map objKeys = items.map objKeys ∧
    (onBridgeMessage snap sampleData (.msg (some REQUEST_DATA_EVENT) .jundef) oc).1 =
      [⟨DATA_EVENT, .jarr snap.data⟩] ∧
    broadcastDataMsgs states =
      (states.destutter (fun a b => a ≠ b)).map (fun d => ⟨DATA_EVENT, .jarr d⟩) := by
  refine ⟨sanitizeData_jarr items, ?_, ?_, ?_⟩
  · rw [sanitizeData_jarr]; rfl
  · show [OutMsg.mk DATA_EVENT (sanitizeData (.jarr snap.data))] = _
    rw [sanitizeData_jarr]
  · unfold broadcastDataMsgs
    simp only [sanitizeData_jarr]

/-- Claim C2, counterexample: the claim says an absent or invalid
`ADD_MORE_DATA` payload makes the handler use count 5.  It is false for
invalid payloads: a JavaScript default parameter applies only to
`undefined`, so a `null` payload is passed through, `Array.from` coerces
it to length `0`, and zero items are appended (the list stays at 7, not
12). -/
theorem claim2_counterexample :
    ((onBridgeMessage ⟨[], false⟩ initialSampleData
        (.msg (some ADD_MORE_DATA_EVENT) .jnull) .success).2).length =
      initialSampleData.length ∧
    ((onBridgeMessage ⟨[], false⟩ initialSampleData
        (.msg (some ADD_MORE_DATA_EVENT) .jnull) .success).2).length ≠
      initialSampleData.length + 5 := by
  decide

/-- Claim C2, amended: for every inbound `ADD_MORE_DATA` message, count 5
is used exactly when the payload is absent (`undefined`); any other
payload — valid or not — is passed through to `addMoreData`, where
`Array.from`'s length coercion turns `null` (and non-positive numbers)
into 0 appended items.  On provider success the handler emits
`DATA_UPDATE` with the new full list followed by `LOADING_UPDATE(false)`;
on provider failure it emits only `LOADING_UPDATE(false)` and nothing
else reaches the requester. -/
theorem claim2_amended (snap : StoreSnap) (sampleData : List DataItem) (p : JVal) :
    (onBridgeMessage snap sampleData (.msg (some ADD_MORE_DATA_EVENT) p) .success).1 =
      [⟨DATA_EVENT, sanitizeData (encodeItems
          (addMoreData sampleData (if p = JVal.jundef then JVal.jnum 5 else p)))⟩,
       ⟨LOADING_EVENT, .jbool false⟩] ∧
    (onBridgeMessage snap sampleData (.msg (some ADD_MORE_DATA_EVENT) p) .success).2 =
      addMoreData sampleData (if p = JVal.jundef then JVal.jnum 5 else p) ∧
    (onBridgeMessage snap sampleData (.msg (some ADD_MORE_DATA_EVENT) p) .failure).1 =
      [⟨LOADING_EVENT, .jbool false⟩] ∧
    (addMoreData sampleData JVal.jundef).length = sampleData.length + 5 ∧
    (addMoreData sampleData JVal.jnull).length = sampleData.length :=
  ⟨rfl, rfl, rfl, by simp [addMoreData_length, toLengthNat],
   by simp [addMoreData_length, toLengthNat]⟩

/-- Claim C3: after any sequence of `activate()`/`deactivate()` calls
starting from count 0, the activation counter is never negative and
broadcasting is active iff the counter is positive; three `activate()`
calls followed by two `deactivate()` calls leave broadcasting active, and
one more `deactivate()` stops it. -/
theorem claim3_activation_counter (calls : List BridgeCall) :
    (0 ≤ (runBridgeCalls initialBridgeState calls).activeListeners ∧
      ((runBridgeCalls initialBridgeState calls).broadcasting = true ↔
        0 < (runBridgeCalls initialBridgeState calls).activeListeners)) ∧
    (runBridgeCalls initialBridgeState
        [.activate, .activate, .activate, .deactivate, .deactivate]).broadcasting = true ∧
    (runBridgeCalls initialBridgeState
        [.activate, .activate, .activate, .deactivate, .deactivate,
         .deactivate]).broadcasting = false :=
  ⟨bridgeInv_run calls initialBridgeState (by decide), by decide, by decide⟩

/-- Claim C4: for every provider state satisfying the id invariant (which
holds in every reachable state, `dataInv_runOps`) and every count
`n ≥ 1`, `addMoreData` grows the list by exactly `n`, and the appended
items are exactly the generated items with ids `maxId + 1` through
`maxId + n`, names and descriptions synthesized from the id
(`mkGeneratedItem`); the resulting ids are `1, ..., length + n`. -/
theorem claim4_add_items (s : List DataItem) (n : Nat) (h : dataInv s) (hn : 1 ≤ n) :
    (addMoreData s (.jnum (n : Int))).length = s.length + n ∧
    addMoreData s (.jnum (n : Int)) =
      s ++ (List.range n).map (fun i => mkGeneratedItem (maxId s + i + 1)) ∧
    (addMoreData s (.jnum (n : Int))).map (fun it => it.id) =
      List.range' 1 (s.length + n) := by
  have hmax : maxId s = s.length := maxId_of_inv h
  have hlen : toLengthNat (if (JVal.jnum (n : Int)) = JVal.jundef
      then JVal.jnum 5 else JVal.jnum (n : Int)) = n := by
    simp [toLengthNat]
  refine ⟨?_, ?_, ?_⟩
  · rw [addMoreData_length, hlen]
  · rw [addMoreData_eq, hlen, hmax]
  · have h2 := dataInv_addMoreData (JVal.jnum (n : Int)) h
    unfold dataInv at h2
    rw [h2, addMoreData_length, hlen]

/-- Claim C4, witness: the theorem applied at the 7-item baseline with
count 3 — the list grows to 10 with ids 1..10. -/
theorem claim4_witness :
    (addMoreData initialSampleData (.jnum ((3 : Nat) : Int))).length =
      initialSampleData.length + 3 ∧
    addMoreData initialSampleData (.jnum ((3 : Nat) : Int)) =
      initialSampleData ++
        (List.range 3).map (fun i => mkGeneratedItem (maxId initialSampleData + i + 1)) ∧
    (addMoreData initialSampleData (.jnum ((3 : Nat) : Int))).map (fun it => it.id) =
      List.range' 1 (initialSampleData.length + 3) :=
  claim4_add_items initialSampleData 3 (by decide) (by decide)

/-- Claim C5: `resetData` yields the fixed 7-item baseline (ids 1..7 with
the baseline names and descriptions) from every state, in particular from
every state reached by prior operations, and is idempotent. -/
theorem claim5_reset (s : List DataItem) (ops : List DataOp) :
    resetData s = initialSampleData ∧
    resetData (runOps initialSampleData ops) = initialSampleData ∧
    resetData (resetData s) = resetData s ∧
    initialSampleData.length = 7 ∧
    initialSampleData.map (fun it => it.id) = [1, 2, 3, 4, 5, 6, 7] :=
  ⟨rfl, rfl, rfl, rfl, by decide⟩

/-- Claim C6: for every inbound `REQUEST_DATA` message, the bridge emits
exactly one message — one `DATA_UPDATE` whose payload is the sanitized
then-current item list (equal to the current list, since sanitization
preserves it) — mutates no provider state, and sends nothing further for
the request. -/
theorem claim6_request_data (snap : StoreSnap) (sampleData : List DataItem)
    (p : JVal) (oc : ProviderOutcome) :
    onBridgeMessage snap sampleData (.msg (some REQUEST_DATA_EVENT) p) oc =
      ([⟨DATA_EVENT, sanitizeData (.jarr snap.data)⟩], sampleData) ∧
    (onBridgeMessage snap sampleData (.msg (some REQUEST_DATA_EVENT) p) oc).1.length = 1 ∧
    sanitizeData (.jarr snap.data) = .jarr snap.data :=
  ⟨rfl, rfl, sanitizeData_jarr snap.data⟩

/-- Claim C7: while broadcasting, the deduplicated pipelines never emit
two consecutive `DATA_UPDATE` messages for identical item-list values
(neither as whole messages nor at payload level) and never two
consecutive `LOADING_UPDATE` messages for identical flags: identical
consecutive store states are suppressed. -/
theorem claim7_dedup (states : List (List JsObject)) (flags : List Bool) :
    List.Chain' (fun a b => a ≠ b) (broadcastDataMsgs states) ∧
    List.Chain' (fun a b => a ≠ b) ((broadcastDataMsgs states).map OutMsg.payload) ∧
    List.Chain' (fun a b => a ≠ b) (broadcastLoadingMsgs flags) := by
  refine ⟨?_, ?_, ?_⟩
  · unfold broadcastDataMsgs
    apply List.chain'_map_of_chain' _ ?_ (List.destutter_is_chain' _ states)
    intro a b hab
    simp [sanitizeData_jarr]
    exact hab
  · unfold broadcastDataMsgs
    rw [List.map_map]
    apply List.chain'_map_of_chain' _ ?_ (List.destutter_is_chain' _ states)
    intro a b hab
    simp [Function.comp, sanitizeData_jarr]
    exact hab
  · unfold broadcastLoadingMsgs
    apply List.chain'_map_of_chain' _ ?_ (List.destutter_is_chain' _ flags)
    intro a b hab
    simp
    exact hab

/-- Claim C8, counterexample: the claim says `getSampleData` returns the
fixed 7-item baseline regardless of items added.  It is false: the source
returns a copy of the current (mutated) `sampleData`, so after adding 3
items it returns 10 items, not 7. -/
theorem claim8_counterexample :
    (getSampleData (addMoreData initialSampleData (.jnum 3))).length ≠ 7 := by
  decide

/-- Claim C8, amended: `getSampleData` returns (a copy of) the current
item list, whatever it is; only in the unmutated initial state is that
the fixed baseline of exactly 7 items with ids 1 through 7. -/
theorem claim8_amended (s : List DataItem) :
    getSampleData s = s ∧
    getSampleData initialSampleData = initialSampleData ∧
    initialSampleData.length = 7 ∧
    initialSampleData.map (fun it => it.id) = [1, 2, 3, 4, 5, 6, 7] :=
  ⟨rfl, rfl, rfl, by decide⟩

/-- Claim C9: an inbound message with a missing `type`, a falsy `event.data`,
or a `type` outside the six-entry catalog is ignored by both receivers:
the bridge emits nothing and leaves the provider state unchanged, and the
React listener's local state (data, loading, storeAvailable) is
unchanged. -/
theorem claim9_unknown_ignored (snap : StoreSnap) (sampleData : List DataItem)
    (st : ReactState) (p : JVal) (oc : ProviderOutcome) (t : String)
    (ht : t ∉ messageTypeCatalog) :
    onBridgeMessage snap sampleData (.msg (some t) p) oc = ([], sampleData) ∧
    handleBroadcastMessage st (.msg (some t) p) = st ∧
    onBridgeMessage snap sampleData (.msg none p) oc = ([], sampleData) ∧
    handleBroadcastMessage st (.msg none p) = st ∧
    onBridgeMessage snap sampleData .noData oc = ([], sampleData) ∧
    handleBroadcastMessage st .noData = st := by
  simp only [messageTypeCatalog, List.mem_cons, List.not_mem_nil, or_false,
    not_or] at ht
  obtain ⟨h1, h2, h3, h4, h5, h6⟩ := ht
  refine ⟨?_, ?_, rfl, rfl, rfl, rfl⟩
  · by_cases h0 : t = ""
    · simp [onBridgeMessage, h0]
    · simp [onBridgeMessage, h0, h3, h4, h5, h6]
  · by_cases h0 : t = ""
    · simp [handleBroadcastMessage, h0]
    · simp [handleBroadcastMessage, h0, h1, h2]

/-- Claim C9, witness: the theorem applied at the concrete unknown type
`BOGUS_EVENT` with a `null` payload. -/
theorem claim9_witness :
    onBridgeMessage ⟨[], false⟩ initialSampleData
        (.msg (some "BOGUS_EVENT") JVal.jnull) ProviderOutcome.success =
      ([], initialSampleData) ∧
    handleBroadcastMessage ⟨JVal.jarr [], JVal.jbool false, false⟩
        (.msg (some "BOGUS_EVENT") JVal.jnull) = ⟨JVal.jarr [], JVal.jbool false, false⟩ ∧
    onBridgeMessage ⟨[], false⟩ initialSampleData (.msg none JVal.jnull)
        ProviderOutcome.success = ([], initialSampleData) ∧
    handleBroadcastMessage ⟨JVal.jarr [], JVal.jbool false, false⟩ (.msg none JVal.jnull) =
      ⟨JVal.jarr [], JVal.jbool false, false⟩ ∧
    onBridgeMessage ⟨[], false⟩ initialSampleData .noData ProviderOutcome.success =
      ([], initialSampleData) ∧
    handleBroadcastMessage ⟨JVal.jarr [], JVal.jbool false, false⟩ .noData =
      ⟨JVal.jarr [], JVal.jbool false, false⟩ :=
  claim9_unknown_ignored ⟨[], false⟩ initialSampleData
    ⟨JVal.jarr [], JVal.jbool false, false⟩ JVal.jnull ProviderOutcome.success
    "BOGUS_EVENT" (by decide)

/-- Claim C10: the baseline satisfies the id invariant (ids exactly
`1, ..., length`, in order), every `DataService` operation preserves it,
and under it the ids are duplicate-free and the maximum id equals the
list length — which is what makes the length-based id generation of the
code coincide with the spec's continue-from-the-maximum rule. -/
theorem claim10_invariant (s : List DataItem) (op : DataOp) (h : dataInv s) :
    dataInv initialSampleData ∧
    dataInv (applyOp s op) ∧
    maxId s = s.length ∧
    (s.map (fun it => it.id)).Nodup :=
  ⟨dataInv_initial, dataInv_applyOp op h, maxId_of_inv h,
   by rw [h]; exact List.nodup_range' _ _⟩

/-- Claim C10, witness: the theorem applied at the baseline with a
`reset` operation. -/
theorem claim10_witness :
    dataInv initialSampleData ∧
    dataInv (applyOp initialSampleData DataOp.reset) ∧
    maxId initialSampleData = initialSampleData.length ∧
    (initialSampleData.map (fun it => it.id)).Nodup :=
  claim10_invariant initialSampleData DataOp.reset (by decide)
